import Mathlib

/-!
Verification development for the voice-recorder repository.

Shallow embedding of the recording logic in `app/audio_utils.py`,
`services/recording_service.py` and the scheduling/UI logic in
`app/main.py`.  Wall-clock time is modelled in microseconds, loop time in
audio samples (one PyAudio read of `chunk_size = 1024` frames advances the
clock by 1024 samples at the fixed 44100 Hz rate; one sleep-loop iteration
of the sounddevice/plyer branches advances it by a tenth of a second).
External collaborators (the audio stream, the concurrently-read
`is_recording` flag, the plyer bridge) enter as explicit inputs: a list of
per-iteration observations.  Fallible operations are `Except` values; a
worker that can never surface an exception to its caller has a plain
(non-`Except`) result type.
-/

set_option autoImplicit false

namespace VoiceRecorder

/-- One PyAudio chunk: the frames returned by a single `stream.read`. -/
abbrev Chunk := List Int

/-- A WAV container file as the `wave` module produces it: the header
fields set by `setnchannels` / `setsampwidth` / `setframerate`, the frames
appended by `writeframes`, and whether the header was finalized by closing
the file (the `with wave.open(...)` block or an explicit `close`). -/
structure WavFile where
  nchannels : Nat
  sampwidth : Nat
  framerate : Nat
  frames : List Int
  finalized : Bool
  deriving DecidableEq, Repr

/-- A file on disk: either a WAV written by this code through the `wave`
module or `soundfile`, or a capture saved by the external plyer bridge in
whatever container the bridge itself chooses (this code never sees it). -/
inductive FileData where
  | wav (w : WavFile)
  | bridgeNative
  deriving DecidableEq, Repr

/-- The guard `if duration_seconds and (time.time() - start_time) >= duration_seconds`
of the three `AudioRecorder` backend loops (audio_utils.py lines 117, 158,
183).  `none` models `duration_seconds = None`; `some 0` models
`duration_seconds = 0`, which is falsy in Python, so the whole conjunction
is false and the loop is not bounded by duration.  `elapsed` and `d` are in
the same time unit (samples for the PyAudio loop, tenths of a second for
the sleep loops). -/
def durGuard (d : Option Nat) (elapsed : Nat) : Bool :=
  match d with
  | none => false
  | some dur => dur != 0 && decide (dur <= elapsed)

/-- One iteration of observations for the PyAudio loop: the value of
`self.is_recording` read at the top of the loop, and the outcome of
`stream.read` (a chunk, or a raised exception message) if the read is
reached. -/
structure ReadEvt where
  flag : Bool
  read : Except String Chunk
  deriving Repr

/-- Why the PyAudio loop of `AudioRecorder._record_with_pyaudio` stopped. -/
inductive LoopExit where
  /-- `while self.is_recording` saw a false flag. -/
  | stopped
  /-- the duration guard broke out of the loop. -/
  | durationHit
  /-- `stream.read` raised; the `except` clause breaks out of the loop. -/
  | readError
  /-- the observation window ended with the loop still running. -/
  | windowEnd
  deriving DecidableEq, Repr

/-- The loop of `AudioRecorder._record_with_pyaudio` (audio_utils.py lines
116-125): while the flag is true, break if the duration guard fires
(elapsed time is `1024 * written` samples after `written` successful
chunk reads), otherwise read a chunk and append it with `writeframes`;
a read exception breaks out of the loop.  Returns the chunks written and
the exit cause. -/
def pyLoop : List ReadEvt → Option Nat → Nat → List Chunk × LoopExit
  | [], _, _ => ([], .windowEnd)
  | e :: es, d, written =>
    if e.flag = false then ([], .stopped)
    else if durGuard d (1024 * written) then ([], .durationHit)
    else
      match e.read with
      | .error _ => ([], .readError)
      | .ok c =>
        let r := pyLoop es d (written + 1)
        (c :: r.1, r.2)

/-- `AudioRecorder._record_with_pyaudio` (audio_utils.py lines 94-134):
opening the stream may raise (then the outer `except` catches it and no
file is written); otherwise the `with wave.open` block sets the header to
1 channel, sample width 2, rate 44100, runs the loop, and finalizes the
header on block exit whatever way the loop ended.  The `finally` clause
sets `is_recording` to `False` on every path; the function returns
normally on every path.  Result: the files written (path paired with
content) and the final value of `is_recording`. -/
def record_with_pyaudio (openRes : Except String Unit) (events : List ReadEvt)
    (d : Option Nat) (filepath : String) : List (String × FileData) × Bool :=
  match openRes with
  | .error _ => ([], false)
  | .ok _ =>
    let r := pyLoop events d 0
    ([(filepath, .wav ⟨1, 2, 44100, r.1.flatten, true⟩)], false)

/-- The wait loop of `AudioRecorder._record_with_sounddevice` (audio_utils.py
lines 156-160): while the flag is true, break if the duration guard fires,
else `time.sleep(0.1)`.  Time is counted in tenths of a second; the guard
compares it against `10 * duration`.  Returns the elapsed tenths and
whether the loop exited within the observation window. -/
def sdWait : List Bool → Option Nat → Nat → Nat × Bool
  | [], _, t => (t, false)
  | f :: fs, d, t =>
    if f = false then (t, true)
    else if durGuard (d.map (10 * ·)) t then (t, true)
    else sdWait fs d (t + 1)

/-- `AudioRecorder._record_with_sounddevice` (audio_utils.py lines 136-171):
if anything in the body raises (`sdOk = false`), the `except` catches it
and no file is written.  Otherwise `sd.rec` captures `frames` samples of
the input `signal` — `duration * rate` when the duration is truthy, else
`rate * 300` — the wait loop runs, and `sf.write` stores the buffer
trimmed to the elapsed time at the fixed rate as a 16-bit mono WAV
(`self.format = 'int16'`, `self.channels = 1`).  `finally` clears the
flag on every path. -/
def record_with_sounddevice (sdOk : Bool) (signal : Nat → Int)
    (stopFlags : List Bool) (d : Option Nat) (filepath : String) :
    List (String × FileData) × Bool :=
  if sdOk = false then ([], false)
  else
    let frames := match d with
      | some dur => if dur != 0 then dur * 44100 else 44100 * 300
      | none => 44100 * 300
    let w := sdWait stopFlags d 0
    ([(filepath, .wav ⟨1, 2, 44100, ((List.range frames).map signal).take (w.1 * 4410), true⟩)], false)

/-- The wait loop of `AudioRecorder._record_with_plyer` (audio_utils.py
lines 181-185): textually the same loop as the sounddevice wait loop. -/
def plyWait : List Bool → Option Nat → Nat → Nat × Bool
  | [], _, t => (t, false)
  | f :: fs, d, t =>
    if f = false then (t, true)
    else if durGuard (d.map (10 * ·)) t then (t, true)
    else plyWait fs d (t + 1)

/-- Truncation toward zero, the behaviour of Python `int()` on a float. -/
noncomputable def truncInt (x : ℝ) : ℤ :=
  if 0 ≤ x then ⌊x⌋ else ⌈x⌉

/-- The sample written at index `i` by `AudioRecorder._create_dummy_recording`
(audio_utils.py line 215): `int(32767 * math.sin(2 * math.pi * 440 * i / 44100))`. -/
noncomputable def dummySample (i : Nat) : Int :=
  truncInt (32767 * Real.sin (2 * Real.pi * 440 * i / 44100))

/-- `AudioRecorder._create_dummy_recording` (audio_utils.py lines 197-223):
a 1-channel, width-2, 44100 Hz WAV holding `int(1.0 * 44100)` sine
samples at 440 Hz, finalized by the `with` block.  The function takes no
duration argument at all. -/
noncomputable def create_dummy_recording : WavFile :=
  ⟨1, 2, 44100, (List.range 44100).map dummySample, true⟩

/-- `AudioRecorder._record_with_plyer` (audio_utils.py lines 173-195): on
the success path the bridge starts, the wait loop runs, `audio.stop()`
saves the capture at the path the bridge then holds in `audio.file_path`
(its prior value `bridgePath`, since the code assigns
`audio.file_path = filepath` only after `stop`), in the container format
the bridge chooses.  If the bridge raises (`bridgeOk = false`), the
`except` clause writes the dummy recording at `filepath`.  `finally`
clears the flag on every path. -/
noncomputable def record_with_plyer (bridgeOk : Bool) (bridgePath : String)
    (stopFlags : List Bool) (d : Option Nat) (filepath : String) :
    List (String × FileData) × Bool :=
  if bridgeOk then
    let _w := plyWait stopFlags d 0
    ([(bridgePath, .bridgeNative)], false)
  else
    ([(filepath, .wav create_dummy_recording)], false)

/-- The process-wide `audio_lib` value of audio_utils.py lines 13-38. -/
inductive AudioLib where
  | pyaudio
  | sounddevice
  | plyer
  deriving DecidableEq, Repr

/-- The external observations a recording worker consumes, bundled so the
dispatcher can be stated uniformly over backends. -/
structure WorkerEnv where
  openRes : Except String Unit
  events : List ReadEvt
  sdOk : Bool
  signal : Nat → Int
  stopFlags : List Bool
  bridgeOk : Bool
  bridgePath : String

/-- `AudioRecorder._record_worker` (audio_utils.py lines 82-92): dispatch
on `audio_lib`; with no backend it calls `_create_dummy_recording` with
the file path only, dropping the duration argument. -/
noncomputable def record_worker (lib : Option AudioLib) (env : WorkerEnv)
    (filepath : String) (d : Option Nat) : List (String × FileData) × Bool :=
  match lib with
  | some .pyaudio => record_with_pyaudio env.openRes env.events d filepath
  | some .sounddevice => record_with_sounddevice env.sdOk env.signal env.stopFlags d filepath
  | some .plyer => record_with_plyer env.bridgeOk env.bridgePath env.stopFlags d filepath
  | none => ([(filepath, .wav create_dummy_recording)], false)

/-- The mutable fields of `AudioRecorder` touched by `start_recording`
(audio_utils.py lines 44-47): the run-state flag, the worker-thread
handle (modelled by a thread identifier), and the `audio_data` buffer. -/
structure RecorderState where
  is_recording : Bool
  recording_thread : Option Nat
  audio_data : List Int
  deriving DecidableEq, Repr

namespace AudioRecorder

/-- `AudioRecorder.start_recording` (audio_utils.py lines 61-74): if
already recording, return `False` at once; otherwise set the flag, clear
the buffer, store a fresh thread handle and start it.  The third
component counts the worker threads launched by the call. -/
def start_recording (s : RecorderState) (newThread : Nat) :
    Bool × RecorderState × Nat :=
  if s.is_recording then (false, s, 0)
  else (true, ⟨true, some newThread, []⟩, 1)

end AudioRecorder

/-- The mutable fields of `RecordingService` touched by `start_recording`
(recording_service.py lines 44-50), wake lock and notification state
elided (they are host-bridge calls). -/
structure ServiceState where
  is_recording : Bool
  recording_thread : Option Nat
  deriving DecidableEq, Repr

/-- How the loop of `RecordingService._record_audio` stopped. -/
inductive SvcExit where
  /-- the `while` condition became false (flag cleared or duration elapsed). -/
  | whileFalse
  /-- `self.audio_stream.read` raised; the `except` clause breaks out. -/
  | readError
  /-- the observation window ended with the loop still running. -/
  | windowEnd
  deriving DecidableEq, Repr

namespace RecordingService

/-- `RecordingService.start_recording` (recording_service.py lines
155-192): if already recording, log a warning and return — the method has
no `return` value on any path, which Python reads as `None` (modelled as
`none : Option Bool`).  Otherwise set the flag and start one worker
thread (the success path of the `try`; wake lock, file naming and the
notification are host-bridge effects outside the state).  The third
component counts worker threads launched. -/
def start_recording (s : ServiceState) (newThread : Nat) :
    Option Bool × ServiceState × Nat :=
  if s.is_recording then (none, s, 0)
  else (none, ⟨true, some newThread⟩, 1)

/-- The loop of `RecordingService._record_audio` (recording_service.py
lines 259-266): `while self.is_recording and (time.time() - start_time) <
duration_seconds`, with elapsed time `1024 * written` samples after
`written` chunk reads and `duration_seconds` converted to samples; a read
exception breaks out of the loop. -/
def serviceLoop : List ReadEvt → Nat → Nat → List Chunk × SvcExit
  | [], _, _ => ([], .windowEnd)
  | e :: es, dur, written =>
    if e.flag = false then ([], .whileFalse)
    else if dur ≤ 1024 * written then ([], .whileFalse)
    else
      match e.read with
      | .error _ => ([], .readError)
      | .ok c =>
        let r := serviceLoop es dur (written + 1)
        (c :: r.1, r.2)

/-- `RecordingService._record_audio` (recording_service.py lines 228-292):
when `pyaudio` is not importable the method logs and returns at once,
before the `try`/`finally`, so the flag keeps its current value.
Otherwise a failed stream open is caught by the `except` clause and the
`finally` clears the flag; on the success path the wave header (1 channel,
width 2, rate 44100) is written, the loop runs, the file is closed right
after the loop on every loop exit, and `finally` clears the flag.  Result:
the final `is_recording` value and the file written. -/
def record_audio (pyaudioAvailable : Bool) (openRes : Except String Unit)
    (events : List ReadEvt) (durationSamples : Nat) (flagIn : Bool) :
    Bool × Option WavFile :=
  if pyaudioAvailable = false then (flagIn, none)
  else
    match openRes with
    | .error _ => (false, none)
    | .ok _ =>
      let r := serviceLoop events durationSamples 0
      (false, some ⟨1, 2, 44100, r.1.flatten, true⟩)

end RecordingService

/-- The persisted `recording` entry of the `JsonStore`.  `JsonStore.put`
replaces the whole entry with exactly the keyword arguments of the call,
so every field is optional: a key absent from the stored record is
`none`. -/
structure StoreRecord where
  hour : Option Int
  minute : Option Int
  duration : Option Int
  scheduled_timestamp : Option Nat
  is_scheduled : Option Bool
  deriving DecidableEq, Repr

/-- The text fields of the schedule form read and written by
`load_settings` and `schedule_recording` (app/main.py). -/
structure UIState where
  hourText : String
  minuteText : String
  durationText : String
  deriving DecidableEq, Repr

/-- The application state touched by `schedule_recording` and
`cancel_recording` (app/main.py): the persisted store entry, the status
label, the schedule-button caption, and the one pending OS alarm
(`none` when no alarm is programmed), modelled by its trigger instant. -/
structure AppState where
  store : Option StoreRecord
  status : String
  scheduleBtnText : String
  alarm : Option Nat
  deriving DecidableEq, Repr

/-- One day in microseconds; wall-clock instants are microseconds of naive
local time, so that midnight falls on the multiples of this constant. -/
def day_us : Nat := 86400000000

/-- `now.replace(hour=hour, minute=minute, second=0, microsecond=0)`
(app/main.py line 163): the instant of hour:minute:00 on the day of
`now`. -/
def todayAt (now h m : Nat) : Nat :=
  now - now % day_us + (3600 * h + 60 * m) * 1000000

/-- The timestamp computation of `VoiceRecorderApp.schedule_recording`
(app/main.py lines 162-167): today at hour:minute, pushed to the next day
when that instant is not strictly after `now`. -/
def nextOccurrence (now h m : Nat) : Nat :=
  let sched := todayAt now h m
  if sched ≤ now then sched + day_us else sched

/-- `VoiceRecorderApp.schedule_recording` (app/main.py lines 150-184).
The three text fields enter as the results of their `int(...)` parses
(`none` = `ValueError`); a parse failure in any of them, and likewise an
hour or minute outside the range `datetime.replace` accepts, lands in the
`except ValueError` handler, which only sets the status label.  A
non-positive duration sets the status and returns.  Otherwise the store
entry is replaced by the full record, on Android the alarm is programmed
for the computed instant (`schedule_android_alarm`, success path), and the
status and button captions are updated. -/
def schedule_recording (hourVal minuteVal durationVal : Option Int)
    (now : Nat) (android : Bool) (s : AppState) : AppState :=
  match hourVal, minuteVal, durationVal with
  | some h, some m, some dur =>
    if dur ≤ 0 then { s with status := "Error: Duration must be positive" }
    else if h < 0 ∨ 24 ≤ h ∨ m < 0 ∨ 60 ≤ m then
      { s with status := "Error: Please enter valid numbers" }
    else
      let t := nextOccurrence now h.toNat m.toNat
      { store := some ⟨some h, some m, some dur, some t, some true⟩,
        status := "Recording scheduled for " ++ toString t,
        scheduleBtnText := "Reschedule Recording",
        alarm := if android then some t else s.alarm }
  | _, _, _ => { s with status := "Error: Please enter valid numbers" }

/-- `VoiceRecorderApp.cancel_recording` (app/main.py lines 186-194): the
store entry is replaced by a record holding only `is_scheduled = False`,
on Android the alarm is cancelled, and status and button captions reset. -/
def cancel_recording (android : Bool) (s : AppState) : AppState :=
  { store := some ⟨none, none, none, none, some false⟩,
    status := "Recording cancelled",
    scheduleBtnText := "Schedule Recording",
    alarm := if android then none else s.alarm }

/-- Python `f"{n:02d}"` for the stored hour and minute values. -/
def pad2 (n : Int) : String :=
  if 0 ≤ n ∧ n < 10 then "0" ++ toString n else toString n

/-- `VoiceRecorderApp.load_settings` (app/main.py lines 278-287): when a
`recording` entry exists, each of the hour, minute and duration form
fields is overwritten only if the corresponding key is present in the
stored record. -/
def load_settings (store : Option StoreRecord) (ui : UIState) : UIState :=
  match store with
  | none => ui
  | some r =>
    let ui1 := match r.hour with
      | some h => { ui with hourText := pad2 h }
      | none => ui
    let ui2 := match r.minute with
      | some m => { ui1 with minuteText := pad2 m }
      | none => ui1
    match r.duration with
    | some dur => { ui2 with durationText := toString dur }
    | none => ui2

/-- The chunks delivered by the successful reads of an event list. -/
def okData (evts : List ReadEvt) : List Chunk :=
  evts.filterMap (fun e => e.read.toOption)

/-- A fixed full-size chunk, as `stream.read(self.chunk_size)` returns. -/
def defaultChunk : Chunk := List.replicate 1024 0

/-- `k` iterations of a healthy backend: flag still true, read succeeds. -/
def goodEvents (k : Nat) : List ReadEvt :=
  List.replicate k ⟨true, .ok defaultChunk⟩

/-! ## Theorems -/

/-- C1 counterexample: `RecordingService.start_recording` on an instance
that is already recording returns `None` (it has no `return` value on any
path), not `False`, so the claim that every recorder returns false on the
second start fails on this concrete instance — although the call indeed
has no side effects and launches no worker. -/
theorem service_start_returns_none_not_false :
    RecordingService.start_recording ⟨true, some 0⟩ 1 = (none, ⟨true, some 0⟩, 0) ∧
      (none : Option Bool) ≠ some false := by
  exact ⟨rfl, by decide⟩

/-- C1 amended: `AudioRecorder.start_recording` returns `False` with no
side effects and launches no worker when already recording, and a
start-start sequence launches exactly one worker with the first call
returning `True` and setting the flag; `RecordingService.start_recording`
behaves the same except that it returns `None` on both paths rather than
`False`. -/
theorem start_start_launches_one_worker
    (s s2 : RecorderState) (u u2 : ServiceState) (t1 t2 : Nat)
    (hs : s.is_recording = false) (hs2 : s2.is_recording = true)
    (hu : u.is_recording = false) (hu2 : u2.is_recording = true) :
    AudioRecorder.start_recording s2 t2 = (false, s2, 0) ∧
    AudioRecorder.start_recording s t1 = (true, ⟨true, some t1, []⟩, 1) ∧
    (AudioRecorder.start_recording s t1).2.2 +
      (AudioRecorder.start_recording (AudioRecorder.start_recording s t1).2.1 t2).2.2 = 1 ∧
    RecordingService.start_recording u2 t2 = (none, u2, 0) ∧
    RecordingService.start_recording u t1 = (none, ⟨true, some t1⟩, 1) ∧
    (RecordingService.start_recording u t1).2.2 +
      (RecordingService.start_recording (RecordingService.start_recording u t1).2.1 t2).2.2 = 1 := by
  simp [AudioRecorder.start_recording, RecordingService.start_recording, hs, hs2, hu, hu2]

/-- C1 witness: the amended start-start property at concrete states. -/
theorem start_start_launches_one_worker_witness :
    AudioRecorder.start_recording ⟨true, some 5, [1]⟩ 2 = (false, ⟨true, some 5, [1]⟩, 0) ∧
    AudioRecorder.start_recording ⟨false, none, []⟩ 1 = (true, ⟨true, some 1, []⟩, 1) ∧
    (AudioRecorder.start_recording ⟨false, none, []⟩ 1).2.2 +
      (AudioRecorder.start_recording
        (AudioRecorder.start_recording ⟨false, none, []⟩ 1).2.1 2).2.2 = 1 ∧
    RecordingService.start_recording ⟨true, some 7⟩ 2 = (none, ⟨true, some 7⟩, 0) ∧
    RecordingService.start_recording ⟨false, none⟩ 1 = (none, ⟨true, some 1⟩, 1) ∧
    (RecordingService.start_recording ⟨false, none⟩ 1).2.2 +
      (RecordingService.start_recording
        (RecordingService.start_recording ⟨false, none⟩ 1).2.1 2).2.2 = 1 :=
  start_start_launches_one_worker ⟨false, none, []⟩ ⟨true, some 5, [1]⟩
    ⟨false, none⟩ ⟨true, some 7⟩ 1 2 rfl rfl rfl rfl

/-- C2: for every valid hour and minute and every current instant, the
scheduled timestamp is strictly in the future, at most 24 hours ahead,
and equals today at hour:minute when that is still strictly in the
future, else the same time the next day. -/
theorem nextOccurrence_future_within_day (now h m : Nat)
    (hh : h < 24) (hm : m < 60) :
    now < nextOccurrence now h m ∧
    nextOccurrence now h m ≤ now + day_us ∧
    nextOccurrence now h m =
      (if now < todayAt now h m then todayAt now h m else todayAt now h m + day_us) := by
  have h1 : now % day_us < day_us := Nat.mod_lt now (by norm_num [day_us])
  have h2 : now % day_us ≤ now := Nat.mod_le now day_us
  have h3 : (3600 * h + 60 * m) * 1000000 < day_us := by
    simp only [day_us]; omega
  unfold nextOccurrence todayAt at *
  simp only [day_us] at *
  refine ⟨?_, ?_, ?_⟩ <;> split_ifs <;> omega

/-- C2 witness: the schedule bounds at a concrete instant. -/
theorem nextOccurrence_future_within_day_witness :
    1700000000123456 < nextOccurrence 1700000000123456 12 30 ∧
    nextOccurrence 1700000000123456 12 30 ≤ 1700000000123456 + day_us ∧
    nextOccurrence 1700000000123456 12 30 =
      (if 1700000000123456 < todayAt 1700000000123456 12 30
        then todayAt 1700000000123456 12 30
        else todayAt 1700000000123456 12 30 + day_us) :=
  nextOccurrence_future_within_day 1700000000123456 12 30 (by decide) (by decide)

/-- C6: when any of hour, minute or duration fails to parse,
`schedule_recording` sets the generic error status and leaves the
persisted record, the pending alarm and the schedule button untouched. -/
theorem malformed_input_no_mutation (hv mv dv : Option Int)
    (now : Nat) (android : Bool) (s : AppState)
    (h : hv = none ∨ mv = none ∨ dv = none) :
    (schedule_recording hv mv dv now android s).status = "Error: Please enter valid numbers" ∧
    (schedule_recording hv mv dv now android s).store = s.store ∧
    (schedule_recording hv mv dv now android s).alarm = s.alarm ∧
    (schedule_recording hv mv dv now android s).scheduleBtnText = s.scheduleBtnText := by
  rcases h with h | h | h <;> subst h
  · cases mv <;> cases dv <;> simp [schedule_recording]
  · cases hv <;> cases dv <;> simp [schedule_recording]
  · cases hv <;> cases mv <;> simp [schedule_recording]

/-- C6 witness: a failed hour parse at a concrete state. -/
theorem malformed_input_no_mutation_witness :
    (schedule_recording none (some 30) (some 5) 1700000000123456 true
        ⟨some ⟨some 1, some 2, some 3, some 4, some true⟩, "st", "bt", some 99⟩).status
      = "Error: Please enter valid numbers" ∧
    (schedule_recording none (some 30) (some 5) 1700000000123456 true
        ⟨some ⟨some 1, some 2, some 3, some 4, some true⟩, "st", "bt", some 99⟩).store
      = (⟨some ⟨some 1, some 2, some 3, some 4, some true⟩, "st", "bt", some 99⟩ : AppState).store ∧
    (schedule_recording none (some 30) (some 5) 1700000000123456 true
        ⟨some ⟨some 1, some 2, some 3, some 4, some true⟩, "st", "bt", some 99⟩).alarm
      = (⟨some ⟨some 1, some 2, some 3, some 4, some true⟩, "st", "bt", some 99⟩ : AppState).alarm ∧
    (schedule_recording none (some 30) (some 5) 1700000000123456 true
        ⟨some ⟨some 1, some 2, some 3, some 4, some true⟩, "st", "bt", some 99⟩).scheduleBtnText
      = (⟨some ⟨some 1, some 2, some 3, some 4, some true⟩, "st", "bt", some 99⟩ : AppState).scheduleBtnText :=
  malformed_input_no_mutation none (some 30) (some 5) 1700000000123456 true
    ⟨some ⟨some 1, some 2, some 3, some 4, some true⟩, "st", "bt", some 99⟩ (Or.inl rfl)

/-- C10: `cancel_recording` replaces the whole store entry by a record
holding only `is_scheduled = False`, so hour, minute and duration are no
longer present and a subsequent `load_settings` restores none of the form
fields. -/
theorem cancel_drops_schedule_fields (android : Bool) (s : AppState) (ui : UIState) :
    (cancel_recording android s).store = some ⟨none, none, none, none, some false⟩ ∧
    load_settings (cancel_recording android s).store ui = ui :=
  ⟨rfl, rfl⟩

/-- C3: with no audio backend, the worker writes at the requested path the
dummy file — the same file whatever the duration argument and whatever
the external observations (so also whenever stop happens) — and that file
holds exactly `44100` samples (1 second at the 44100 Hz rate) of the
440 Hz sine tone, in a finalized mono 16-bit header. -/
theorem no_backend_fixed_tone (env env' : WorkerEnv) (fp : String) (d d' : Option Nat) :
    record_worker none env fp d = ([(fp, .wav create_dummy_recording)], false) ∧
    record_worker none env fp d = record_worker none env' fp d' ∧
    create_dummy_recording.frames.length = 44100 ∧
    create_dummy_recording.nchannels = 1 ∧
    create_dummy_recording.sampwidth = 2 ∧
    create_dummy_recording.framerate = 44100 ∧
    create_dummy_recording.finalized = true ∧
    ∀ i : Nat, create_dummy_recording.frames[i]? =
      if i < 44100
        then some (truncInt (32767 * Real.sin (2 * Real.pi * 440 * i / 44100)))
        else none := by
  refine ⟨rfl, rfl, by simp [create_dummy_recording], rfl, rfl, rfl, rfl, ?_⟩
  intro i
  by_cases hi : i < 44100
  · rw [if_pos hi]
    simp [create_dummy_recording, List.getElem?_map, List.getElem?_range, hi, dummySample]
  · rw [if_neg hi]
    refine List.getElem?_eq_none ?_
    simp [create_dummy_recording]
    omega

/-- C4 counterexample: when PyAudio is unavailable,
`RecordingService._record_audio` returns before its `try`/`finally`, so
at this concrete input the worker terminates with the run-state flag
still `true`, refuting flag-false-on-every-termination-path. -/
theorem record_audio_no_pyaudio_keeps_flag :
    RecordingService.record_audio false (.ok ()) [] 61440 true = (true, none) ∧
      (RecordingService.record_audio false (.ok ()) [] 61440 true).1 ≠ false := by
  exact ⟨rfl, by decide⟩

/-- C4 amended: no worker ever surfaces an exception (each embedded worker
is a total function into plain results, every fallible step being handled
inside), and the run-state flag is `false` after the worker terminates on
every termination path of the `AudioRecorder` worker for every backend,
and of `RecordingService._record_audio` whenever PyAudio is available;
when PyAudio is unavailable the service worker returns early with the
flag unchanged. -/
theorem worker_clears_flag (lib : Option AudioLib) (env : WorkerEnv)
    (fp : String) (d : Option Nat) (opn : Except String Unit)
    (evs : List ReadEvt) (dur : Nat) (fl : Bool) :
    (record_worker lib env fp d).2 = false ∧
    (RecordingService.record_audio true opn evs dur fl).1 = false ∧
    (RecordingService.record_audio false opn evs dur fl).1 = fl := by
  refine ⟨?_, ?_, rfl⟩
  · cases lib with
    | none => rfl
    | some b =>
      cases b with
      | pyaudio => cases h : env.openRes <;>
          simp [record_worker, record_with_pyaudio, h]
      | sounddevice => cases h : env.sdOk <;>
          simp [record_worker, record_with_sounddevice, h]
      | plyer => cases h : env.bridgeOk <;>
          simp [record_worker, record_with_plyer, h]
  · cases opn <;> simp [RecordingService.record_audio]

/-- C9: in each backend loop the duration bound is a Python truthiness
test, so `duration_seconds = 0` behaves exactly like `None`: the PyAudio
loop, the sounddevice wait loop and the plyer wait loop are unchanged
functions of the stop flag, and on a healthy never-stopped window the
loop just keeps running (it never exits by itself). -/
theorem zero_duration_behaves_like_none (events : List ReadEvt) (w : Nat)
    (flags flags2 : List Bool) (t t2 : Nat) (k w2 : Nat) :
    pyLoop events (some 0) w = pyLoop events none w ∧
    sdWait flags (some 0) t = sdWait flags none t ∧
    plyWait flags2 (some 0) t2 = plyWait flags2 none t2 ∧
    pyLoop (goodEvents k) (some 0) w2 = (List.replicate k defaultChunk, .windowEnd) := by
  refine ⟨?_, ?_, ?_, ?_⟩
  · induction events generalizing w with
    | nil => rfl
    | cons e es ih => simp [pyLoop, durGuard, ih]
  · induction flags generalizing t with
    | nil => rfl
    | cons f fs ih => simp [sdWait, durGuard, ih]
  · induction flags2 generalizing t2 with
    | nil => rfl
    | cons f fs ih => simp [plyWait, durGuard, ih]
  · induction k generalizing w2 with
    | zero => rfl
    | succ n ih =>
      simp only [goodEvents, List.replicate_succ] at *
      simp [pyLoop, durGuard, ih]

/-- C7 counterexample: a successful plyer recording at a concrete input —
healthy bridge, immediate stop, requested path distinct from the path the
bridge held when `stop` ran — writes nothing at the requested path at
all, because `audio.file_path = filepath` is assigned only after
`audio.stop()` has already saved the capture; so the claim that every
backend writes the common WAV contract at the requested path fails. -/
theorem plyer_writes_nothing_at_requested_path :
    ((record_with_plyer true "bridge_default" [false] none "req.wav").1).lookup "req.wav"
      = none := by
  rfl

/-- C7 amended: for the PyAudio and sounddevice backends every successful
recording writes at the requested path a single file that is a finalized
1-channel, 16-bit (sample width 2), 44100 Hz WAV, the branch changing
only which frames end up in it; the plyer branch instead delegates
capture to the external bridge and, assigning the target path only after
stop, leaves the capture at the path the bridge already held, in the
container the bridge chose. -/
theorem backend_output_contract (events : List ReadEvt) (d : Option Nat)
    (fp : String) (signal : Nat → Int) (flags : List Bool) (p0 : String) :
    (∃ fr, record_with_pyaudio (.ok ()) events d fp
      = ([(fp, .wav ⟨1, 2, 44100, fr, true⟩)], false)) ∧
    (∃ fr, record_with_sounddevice true signal flags d fp
      = ([(fp, .wav ⟨1, 2, 44100, fr, true⟩)], false)) ∧
    (record_with_plyer true p0 flags d fp).1 = [(p0, FileData.bridgeNative)] := by
  exact ⟨⟨_, rfl⟩, ⟨_, rfl⟩, rfl⟩

/-- Once the PyAudio loop hits a read error after a run of successful
iterations on which the duration guard stays quiet, the chunks delivered
so far are exactly what was written and everything after the failing read
is ignored. -/
theorem pyLoop_error_stops (msg : String) (rest : List ReadEvt) (d : Option Nat) :
    ∀ (pre : List ReadEvt) (w : Nat),
      (∀ e ∈ pre, e.flag = true ∧ ∃ c, e.read = .ok c) →
      (∀ i, w ≤ i → i ≤ w + pre.length → durGuard d (1024 * i) = false) →
      pyLoop (pre ++ ⟨true, .error msg⟩ :: rest) d w = (okData pre, .readError) := by
  intro pre
  induction pre with
  | nil =>
    intro w _ hg
    simp [pyLoop, okData, hg w le_rfl (by simp)]
  | cons e pre ih =>
    intro w h1 hg
    obtain ⟨hf, c, hr⟩ := h1 e (List.mem_cons_self e pre)
    have hg0 : durGuard d (1024 * w) = false := hg w le_rfl (by simp)
    have ih1 := ih (w + 1)
      (fun x hx => h1 x (List.mem_cons_of_mem e hx))
      (fun i hi1 hi2 => hg i (by omega) (by simp at hi2 ⊢; omega))
    simp [pyLoop, hf, hr, hg0, ih1, okData, Except.toOption]

/-- The loop of `RecordingService._record_audio` behaves the same way on a
mid-recording read failure. -/
theorem serviceLoop_error_stops (msg : String) (rest : List ReadEvt) (dur : Nat) :
    ∀ (pre : List ReadEvt) (w : Nat),
      (∀ e ∈ pre, e.flag = true ∧ ∃ c, e.read = .ok c) →
      (∀ i, w ≤ i → i ≤ w + pre.length → 1024 * i < dur) →
      RecordingService.serviceLoop (pre ++ ⟨true, .error msg⟩ :: rest) dur w
        = (okData pre, .readError) := by
  intro pre
  induction pre with
  | nil =>
    intro w _ hg
    have := hg w le_rfl (by simp)
    simp [RecordingService.serviceLoop, okData]
    omega
  | cons e pre ih =>
    intro w h1 hg
    obtain ⟨hf, c, hr⟩ := h1 e (List.mem_cons_self e pre)
    have hg0 : 1024 * w < dur := hg w le_rfl (by simp)
    have ih1 := ih (w + 1)
      (fun x hx => h1 x (List.mem_cons_of_mem e hx))
      (fun i hi1 hi2 => hg i (by omega) (by simp at hi2 ⊢; omega))
    simp [RecordingService.serviceLoop, hf, hr, ih1, okData, Except.toOption]
    omega

/-- C5: when a stream read fails mid-recording — after the container file
was opened, some chunks were written and the flag and duration guard
would have let the loop continue — both workers exit the loop early and
still deliver a finalized file holding exactly the chunks written before
the failure, whatever came after the failing read. -/
theorem read_error_partial_file_finalized
    (pre rest pre2 rest2 : List ReadEvt) (msg msg2 : String)
    (d : Option Nat) (fp : String) (dur : Nat) (flagIn : Bool)
    (h1 : ∀ e ∈ pre, e.flag = true ∧ ∃ c, e.read = .ok c)
    (h2 : ∀ i, i ≤ pre.length → durGuard d (1024 * i) = false)
    (h3 : ∀ e ∈ pre2, e.flag = true ∧ ∃ c, e.read = .ok c)
    (h4 : ∀ i, i ≤ pre2.length → 1024 * i < dur) :
    record_with_pyaudio (.ok ()) (pre ++ ⟨true, .error msg⟩ :: rest) d fp
      = ([(fp, .wav ⟨1, 2, 44100, (okData pre).flatten, true⟩)], false) ∧
    RecordingService.record_audio true (.ok ()) (pre2 ++ ⟨true, .error msg2⟩ :: rest2) dur flagIn
      = (false, some ⟨1, 2, 44100, (okData pre2).flatten, true⟩) := by
  constructor
  · have := pyLoop_error_stops msg rest d pre 0 h1 (fun i hi1 hi2 => h2 i (by omega))
    simp [record_with_pyaudio, this]
  · have := serviceLoop_error_stops msg2 rest2 dur pre2 0 h3 (fun i hi1 hi2 => h4 i (by omega))
    simp [RecordingService.record_audio, this]

/-- C5 witness: one successful chunk then a failing read, in both
workers, at concrete inputs. -/
theorem read_error_partial_file_finalized_witness :
    record_with_pyaudio (.ok ())
        ([⟨true, .ok [7]⟩] ++ ⟨true, .error "boom"⟩ :: [⟨true, .ok [9]⟩]) none "a.wav"
      = ([("a.wav", .wav ⟨1, 2, 44100, (okData [⟨true, .ok [7]⟩]).flatten, true⟩)], false) ∧
    RecordingService.record_audio true (.ok ())
        ([⟨true, .ok [3]⟩] ++ ⟨true, .error "oops"⟩ :: []) 44100 true
      = (false, some ⟨1, 2, 44100, (okData [⟨true, .ok [3]⟩]).flatten, true⟩) :=
  read_error_partial_file_finalized [⟨true, .ok [7]⟩] [⟨true, .ok [9]⟩]
    [⟨true, .ok [3]⟩] [] "boom" "oops" none "a.wav" 44100 true
    (by
      intro e he
      rw [List.mem_singleton] at he
      subst he
      exact ⟨rfl, [7], rfl⟩)
    (fun i hi => rfl)
    (by
      intro e he
      rw [List.mem_singleton] at he
      subst he
      exact ⟨rfl, [3], rfl⟩)
    (by
      intro i hi
      simp at hi
      omega)

/-- One healthy iteration of the PyAudio loop while the duration guard is
quiet: write the chunk and continue. -/
theorem pyLoop_cons_ok (es : List ReadEvt) (d : Option Nat) (w : Nat) (c : Chunk)
    (hg : durGuard d (1024 * w) = false) :
    pyLoop (⟨true, .ok c⟩ :: es) d w
      = (c :: (pyLoop es d (w + 1)).1, (pyLoop es d (w + 1)).2) := by
  simp [pyLoop, hg]

/-- The PyAudio loop breaks out as soon as the duration guard fires. -/
theorem pyLoop_cons_durHit (es : List ReadEvt) (d : Option Nat) (w : Nat) (c : Chunk)
    (hg : durGuard d (1024 * w) = true) :
    pyLoop (⟨true, .ok c⟩ :: es) d w = ([], .durationHit) := by
  simp [pyLoop, hg]

/-- One healthy iteration of the service loop while the duration has not
elapsed: write the chunk and continue. -/
theorem serviceLoop_cons_ok (es : List ReadEvt) (dur w : Nat) (c : Chunk)
    (hg : ¬ dur ≤ 1024 * w) :
    RecordingService.serviceLoop (⟨true, .ok c⟩ :: es) dur w
      = (c :: (RecordingService.serviceLoop es dur (w + 1)).1,
          (RecordingService.serviceLoop es dur (w + 1)).2) := by
  simp [RecordingService.serviceLoop, hg]

/-- The service loop condition turns false once the duration has elapsed. -/
theorem serviceLoop_cons_stop (es : List ReadEvt) (dur w : Nat) (c : Chunk)
    (hg : dur ≤ 1024 * w) :
    RecordingService.serviceLoop (⟨true, .ok c⟩ :: es) dur w = ([], .whileFalse) := by
  simp [RecordingService.serviceLoop, hg]

/-- Flattening equal-sized chunks multiplies the lengths. -/
theorem flatten_replicate_length (q n : Nat) (z : Int) :
    (List.replicate q (List.replicate n z)).flatten.length = q * n := by
  induction q with
  | zero => simp
  | succ m ih =>
    simp only [List.replicate_succ, List.flatten_cons, List.length_append,
      List.length_replicate, ih]
    ring

/-- On a healthy never-stopped window long enough for the duration to
elapse, the `AudioRecorder` PyAudio loop exits on the duration guard
having written exactly the least number of chunks whose total time
reaches the duration. -/
theorem pyLoop_duration_exact (D : Nat) (hD : 0 < D) :
    ∀ (k w : Nat), 1024 * w < D → D ≤ 1024 * (w + k) →
      pyLoop (List.replicate (k + 1) ⟨true, .ok defaultChunk⟩) (some D) w
        = (List.replicate ((D + 1023) / 1024 - w) defaultChunk, .durationHit) := by
  have hdiv := Nat.div_add_mod (D + 1023) 1024
  have hmod : (D + 1023) % 1024 < 1024 := Nat.mod_lt _ (by norm_num)
  intro k
  induction k with
  | zero => intro w hw1 hw2; omega
  | succ n ih =>
    intro w hw1 hw2
    have hg0 : durGuard (some D) (1024 * w) = false := by
      simp [durGuard]; omega
    rw [List.replicate_succ, pyLoop_cons_ok _ _ _ _ hg0]
    by_cases h : 1024 * (w + 1) < D
    · have ihr := ih (w + 1) h (by omega)
      have hqw : (D + 1023) / 1024 - w = ((D + 1023) / 1024 - (w + 1)) + 1 := by
        omega
      rw [ihr, hqw, List.replicate_succ]
    · have hg1 : durGuard (some D) (1024 * (w + 1)) = true := by
        simp [durGuard]; omega
      have hstop : pyLoop (List.replicate (n + 1) ⟨true, .ok defaultChunk⟩) (some D) (w + 1)
          = ([], .durationHit) := by
        rw [List.replicate_succ]
        exact pyLoop_cons_durHit _ _ _ _ hg1
      have hq1 : (D + 1023) / 1024 - w = 1 := by omega
      rw [hstop, hq1]
      simp

/-- The same count for the loop of `RecordingService._record_audio`, which
exits through its `while` condition when the duration elapses. -/
theorem serviceLoop_duration_exact (D : Nat) (_hD : 0 < D) :
    ∀ (k w : Nat), 1024 * w < D → D ≤ 1024 * (w + k) →
      RecordingService.serviceLoop (List.replicate (k + 1) ⟨true, .ok defaultChunk⟩) D w
        = (List.replicate ((D + 1023) / 1024 - w) defaultChunk, .whileFalse) := by
  have hdiv := Nat.div_add_mod (D + 1023) 1024
  have hmod : (D + 1023) % 1024 < 1024 := Nat.mod_lt _ (by norm_num)
  intro k
  induction k with
  | zero => intro w hw1 hw2; omega
  | succ n ih =>
    intro w hw1 hw2
    have hg0 : ¬ D ≤ 1024 * w := by omega
    rw [List.replicate_succ, serviceLoop_cons_ok _ _ _ _ hg0]
    by_cases h : 1024 * (w + 1) < D
    · have ihr := ih (w + 1) h (by omega)
      have hqw : (D + 1023) / 1024 - w = ((D + 1023) / 1024 - (w + 1)) + 1 := by
        omega
      rw [ihr, hqw, List.replicate_succ]
    · have hg1 : D ≤ 1024 * (w + 1) := by omega
      have hstop : RecordingService.serviceLoop
            (List.replicate (n + 1) ⟨true, .ok defaultChunk⟩) D (w + 1)
          = ([], .whileFalse) := by
        rw [List.replicate_succ]
        exact serviceLoop_cons_stop _ _ _ _ hg1
      have hq1 : (D + 1023) / 1024 - w = 1 := by omega
      rw [hstop, hq1]
      simp

/-- C8: on a working backend and a window of healthy reads long enough for
a requested duration of `D` samples, both recording loops stop on the
duration bound within one chunk-read of `D`: the written chunks cover at
least `D` samples and strictly less than `D` plus one chunk, so the
playable length of the file is within one chunk-interval of the request. -/
theorem duration_bound_within_one_chunk (D k : Nat) (hD : 0 < D) (hk : D ≤ 1024 * k) :
    pyLoop (goodEvents (k + 1)) (some D) 0
      = (List.replicate ((D + 1023) / 1024) defaultChunk, .durationHit) ∧
    RecordingService.serviceLoop (goodEvents (k + 1)) D 0
      = (List.replicate ((D + 1023) / 1024) defaultChunk, .whileFalse) ∧
    D ≤ 1024 * ((D + 1023) / 1024) ∧
    1024 * ((D + 1023) / 1024) < D + 1024 ∧
    (List.replicate ((D + 1023) / 1024) defaultChunk).flatten.length
      = 1024 * ((D + 1023) / 1024) := by
  have hdiv := Nat.div_add_mod (D + 1023) 1024
  have hmod : (D + 1023) % 1024 < 1024 := Nat.mod_lt _ (by norm_num)
  refine ⟨?_, ?_, by omega, by omega, ?_⟩
  · have := pyLoop_duration_exact D hD k 0 (by omega) (by omega)
    simpa [goodEvents] using this
  · have := serviceLoop_duration_exact D hD k 0 (by omega) (by omega)
    simpa [goodEvents] using this
  · simp only [defaultChunk, flatten_replicate_length]
    omega

/-- C8 witness: a 2000-sample request on a 3-read window stops after two
1024-sample chunks, within one chunk of the request. -/
theorem duration_bound_within_one_chunk_witness :
    pyLoop (goodEvents (2 + 1)) (some 2000) 0
      = (List.replicate ((2000 + 1023) / 1024) defaultChunk, .durationHit) ∧
    RecordingService.serviceLoop (goodEvents (2 + 1)) 2000 0
      = (List.replicate ((2000 + 1023) / 1024) defaultChunk, .whileFalse) ∧
    2000 ≤ 1024 * ((2000 + 1023) / 1024) ∧
    1024 * ((2000 + 1023) / 1024) < 2000 + 1024 ∧
    (List.replicate ((2000 + 1023) / 1024) defaultChunk).flatten.length
      = 1024 * ((2000 + 1023) / 1024) :=
  duration_bound_within_one_chunk 2000 2 (by decide) (by decide)

end VoiceRecorder
